import Mathlib

/-!
Verification development for the `tobi_school` repository (Django app
`schools`): a shallow embedding of the calendar-data refinement pipeline
(`schools/management/commands/refine_calendar_data.py`), the record
classifiers (`schools/admin.py`, `filter_invalid_json.py`), the
process-status reconcilers (`update_process_status.py`,
`reset_scraper_flags_no_data.py`), the HTTP endpoints (`schools/views.py`),
and the CSV import/export commands, together with theorems settling the
specification claims.

Conventions of the embedding:
* JSON payloads are modelled by the inductive type `Json`; Python `None`
  (and JSON `null`) is `Json.null`; Python dicts are association lists in
  insertion order (Python dicts have unique keys, so first-key lookup
  agrees with dict lookup).
* Python truthiness (`if not x`) is `pyTruthy`.
* Machine-level concerns (timestamps, SQL) are abstracted: a school's
  records are kept as a list ordered most-recent-first, mirroring
  `order_by('-created_at')`.
-/

/-- JSON values as stored in the `SchoolData.data` JSONField.  Numbers are
restricted to integers: no claim exercises non-integer numerals. -/
inductive Json where
  | null : Json
  | bool : Bool → Json
  | num : Int → Json
  | str : String → Json
  | arr : List Json → Json
  | obj : List (String × Json) → Json
deriving Repr

/-- First-match association-list lookup, the embedding of Python dict key
lookup (`d[k]` / `k in d`); Python dicts have unique keys. -/
def findVal (fields : List (String × Json)) (k : String) : Option Json :=
  match fields with
  | [] => none
  | (k', v) :: rest => if k' = k then some v else findVal rest k

/-- Embedding of Python `k in d` for a dict `d`. -/
def hasKey (fields : List (String × Json)) (k : String) : Bool :=
  (findVal fields k).isSome

/-- Embedding of Python `d.get(k, default)`; total extension: on a
non-dict argument it returns the default (Python would raise
`AttributeError`; every use in the sources is guarded so that the
argument is a dict). -/
def getJ (j : Json) (k : String) (dflt : Json) : Json :=
  match j with
  | .obj f => (findVal f k).getD dflt
  | _ => dflt

/-- Python truthiness of a JSON value (`bool(x)`): `None`, `False`, `0`,
`""`, `[]` and the empty dict are falsy. -/
def pyTruthy : Json → Bool
  | .null => false
  | .bool b => b
  | .num n => n ≠ 0
  | .str s => s ≠ ""
  | .arr xs => !xs.isEmpty
  | .obj f => !f.isEmpty

/-- Whether a JSON value is a dict (`isinstance(x, dict)`). -/
def isObj : Json → Bool
  | .obj _ => true
  | _ => false

/-- The list inside a JSON array; `[]` on anything else (total extension
of the guarded uses of `for ... in xs` in the sources). -/
def asList : Json → List Json
  | .arr xs => xs
  | _ => []

/-! ## Calendar Validator
`Command.validate_calendar_format` of
`schools/management/commands/refine_calendar_data.py` (lines 78-113). -/

/-- Inner loop of `validate_calendar_format` over the events of one term:
each event must be a dict and contain `start_date` then `event_text`. -/
def validateEvents : List Json → Bool × String
  | [] => (true, "Valid")
  | e :: rest =>
    match e with
    | .obj g =>
      if hasKey g "start_date" = false then
        (false, "Event missing required field: start_date")
      else if hasKey g "event_text" = false then
        (false, "Event missing required field: event_text")
      else validateEvents rest
    | _ => (false, "Event must be a dictionary")

/-- Loop of `validate_calendar_format` over the `terms` array: each term
must be a dict with `academic_year`, `term_name`, `events`, the events a
list, and every event valid, short-circuiting at the first failure. -/
def validateTerms : List Json → Bool × String
  | [] => (true, "Valid")
  | t :: rest =>
    match t with
    | .obj g =>
      if (hasKey g "academic_year" && hasKey g "term_name" && hasKey g "events") = false then
        (false, "Term missing required fields")
      else
        match findVal g "events" with
        | some (.arr evs) =>
          (match validateEvents evs with
           | (true, _) => validateTerms rest
           | r => r)
        | _ => (false, "Events must be a list")
    | _ => (false, "Term must be a dictionary")

/-- `Command.validate_calendar_format` (refine_calendar_data.py:78-113):
strict schema check with short-circuiting ordered reasons. -/
def validate_calendar_format (data : Json) : Bool × String :=
  match data with
  | .obj f =>
    if hasKey f "school_name" = false then
      (false, "Missing required field: school_name")
    else if hasKey f "source_url" = false then
      (false, "Missing required field: source_url")
    else if hasKey f "terms" = false then
      (false, "Missing required field: terms")
    else
      match findVal f "terms" with
      | some (.arr terms) =>
        if terms.isEmpty then (false, "terms array is empty (no terms data)")
        else validateTerms terms
      | _ => (false, "terms must be a list")
  | _ => (false, "Not a dictionary")

/-! ## Calendar Refiner
`Command.refine_data` of refine_calendar_data.py (lines 115-146). -/

/-- Event rebuild step of `refine_data`: exactly the four fields, with
`end_date`/`time` passed through unchanged (absent becomes `null`). -/
def refine_event (e : Json) : Json :=
  .obj [
    ("start_date", getJ e "start_date" (.str "")),
    ("end_date", getJ e "end_date" .null),
    ("time", getJ e "time" .null),
    ("event_text", getJ e "event_text" (.str ""))]

/-- Term rebuild step of `refine_data`. -/
def refine_term (t : Json) : Json :=
  .obj [
    ("academic_year", getJ t "academic_year" (.str "")),
    ("term_name", getJ t "term_name" (.str "")),
    ("events", .arr ((asList (getJ t "events" (.arr []))).map refine_event))]

/-- `Command.refine_data` (refine_calendar_data.py:115-146).  The guard
`if not data: return None` is Python truthiness.  On a truthy non-dict
input the Python would raise `AttributeError`; that case is unreachable
in `handle` (the argument has passed `validate_calendar_format`), and
the total extension via `getJ` is used here. -/
def refine_data (data : Json) : Option Json :=
  if pyTruthy data = false then none
  else
    some (.obj [
      ("school_name", getJ data "school_name" (.str "")),
      ("source_url", getJ data "source_url" (.str "")),
      ("terms", .arr ((asList (getJ data "terms" (.arr []))).map refine_term))])

/-- Modelled from the spec: the normalization step of §4.3 ("copy
`school_name`/`source_url` (default empty string) ... rebuild `events` ...
pass through `end_date`/`time` unchanged (including null/absent-as-null)"),
written from the spec's words as the comparison target for the refinement
claim about `refine_data`. -/
def normalize_event (e : Json) : Json :=
  .obj [
    ("start_date", getJ e "start_date" (.str "")),
    ("end_date", getJ e "end_date" .null),
    ("time", getJ e "time" .null),
    ("event_text", getJ e "event_text" (.str ""))]

/-- Modelled from the spec: term normalization of §4.3. -/
def normalize_term (t : Json) : Json :=
  .obj [
    ("academic_year", getJ t "academic_year" (.str "")),
    ("term_name", getJ t "term_name" (.str "")),
    ("events", .arr ((asList (getJ t "events" (.arr []))).map normalize_event))]

/-- Modelled from the spec: the normalized CalendarDocument of §4.3. -/
def normalizeDoc (d : Json) : Json :=
  .obj [
    ("school_name", getJ d "school_name" (.str "")),
    ("source_url", getJ d "source_url" (.str "")),
    ("terms", .arr ((asList (getJ d "terms" (.arr []))).map normalize_term))]

/-! ## Record classification
The per-payload status categories used by `SchoolDataAdmin`
(admin.py) and `filter_invalid_json.py`. -/

/-- Reporting categories.  `jsonOk` is the `filter_invalid_json` bucket
for payloads that are neither `None` nor the empty dict (its JSON
round-trip check always succeeds on values of `Json`). -/
inductive Category where
  | nullData : Category
  | empty : Category
  | invalid : Category
  | refinedEmptyTerms : Category
  | refined : Category
  | jsonOk : Category
deriving Repr, DecidableEq

/-- Modelled from the spec: the §4.4 classifier `classify(payload)`
(null → NULL; empty object → EMPTY; object with both `school_name` and
`terms` → REFINED when `terms` is a non-empty list, else
REFINED_EMPTY_TERMS; otherwise INVALID), written from the spec's words as
the comparison target for the consumer classifiers below. -/
def classify : Json → Category
  | .null => .nullData
  | .obj f =>
    if f.isEmpty then .empty
    else if hasKey f "school_name" && hasKey f "terms" then
      match (findVal f "terms").getD (.arr []) with
      | .arr ts => if ts.isEmpty then .refinedEmptyTerms else .refined
      | _ => .refinedEmptyTerms
    else .invalid
  | _ => .invalid

/-- `SchoolDataAdmin.data_status` (admin.py:99-114): the per-record
status badge (`if not obj.data` → NULL; dict with both keys → Refined
when terms is a non-empty list, else Empty Terms; otherwise Invalid). -/
def data_status (data : Json) : Category :=
  if pyTruthy data = false then .nullData
  else
    match data with
    | .obj f =>
      if hasKey f "school_name" && hasKey f "terms" then
        match (findVal f "terms").getD (.arr []) with
        | .arr ts => if ts.isEmpty then .refinedEmptyTerms else .refined
        | _ => .refinedEmptyTerms
      else .invalid
    | _ => .invalid

/-- Per-record category of `SchoolDataAdmin.changelist_view`
(admin.py:129-141): the summary counters bucket each record with the same
tests as `data_status`. -/
def summary_category (data : Json) : Category :=
  if pyTruthy data = false then .nullData
  else
    match data with
    | .obj f =>
      if hasKey f "school_name" && hasKey f "terms" then
        match (findVal f "terms").getD (.arr []) with
        | .arr ts => if ts.isEmpty then .refinedEmptyTerms else .refined
        | _ => .refinedEmptyTerms
      else .invalid
    | _ => .invalid

/-- Status column of `SchoolDataAdmin.export_to_csv` (admin.py:180-194):
like `data_status` except that when `terms` is present but not a list the
status stays `Invalid`. -/
def export_status (data : Json) : Category :=
  if pyTruthy data = false then .nullData
  else
    match data with
    | .obj f =>
      if hasKey f "school_name" && hasKey f "terms" then
        match (findVal f "terms").getD (.arr []) with
        | .arr ts => if ts.isEmpty then .refinedEmptyTerms else .refined
        | _ => .invalid
      else .invalid
    | _ => .invalid

/-- Per-record bucket of `filter_invalid_json.Command.handle`
(filter_invalid_json.py:61-82): `data is None` → NULL; empty dict →
EMPTY; any other value of `Json` serializes, so it lands in the valid
bucket (`jsonOk`). -/
def report_status (data : Json) : Category :=
  match data with
  | .null => .nullData
  | .obj f => if f.isEmpty then .empty else .jsonOk
  | _ => .jsonOk

/-- Merge of EMPTY into NULL, relating the spec classifier to the admin
display which has no separate EMPTY badge. -/
def mergeEmpty : Category → Category
  | .empty => .nullData
  | c => c

/-! ## JSON parsing (`json.loads`)
Executable model of the Python `json.loads` calls made by
`extract_json_from_text`.  Fuel-based recursive descent; the fuel
`2 * length + 8` is ample since every recursive step consumes input.
Divergences from CPython that no claim exercises: numbers are restricted
to integers (no floats, `NaN`, `Infinity`), duplicate object keys are
kept in order instead of last-wins, and raw control characters inside
strings are accepted. -/

/-- JSON whitespace accepted between tokens by `json.loads`. -/
def isJsonWs (c : Char) : Bool :=
  c = ' ' || c = '\t' || c = '\n' || c = '\r'

/-- Drop leading JSON whitespace. -/
def skipWsJ (cs : List Char) : List Char := cs.dropWhile isJsonWs

/-- Strip an expected literal token, returning the remainder. -/
def stripTok : List Char → List Char → Option (List Char)
  | [], cs => some cs
  | _, [] => none
  | p :: ps, c :: cs => if c = p then stripTok ps cs else none

/-- Value of one hex digit, if any. -/
def hexVal (c : Char) : Option Nat :=
  if '0' ≤ c ∧ c ≤ '9' then some (c.toNat - '0'.toNat)
  else if 'a' ≤ c ∧ c ≤ 'f' then some (c.toNat - 'a'.toNat + 10)
  else if 'A' ≤ c ∧ c ≤ 'F' then some (c.toNat - 'A'.toNat + 10)
  else none

/-- Body of a JSON string literal after the opening quote, with the
escape sequences `json.loads` accepts. -/
def parseStrBody : List Char → List Char → Option (String × List Char)
  | _, [] => none
  | acc, '"' :: rest => some (String.mk acc.reverse, rest)
  | acc, '\\' :: 'u' :: h1 :: h2 :: h3 :: h4 :: rest =>
    match hexVal h1, hexVal h2, hexVal h3, hexVal h4 with
    | some a, some b, some c, some d =>
      parseStrBody (Char.ofNat (((a * 16 + b) * 16 + c) * 16 + d) :: acc) rest
    | _, _, _, _ => none
  | acc, '\\' :: e :: rest =>
    if e = '"' then parseStrBody ('"' :: acc) rest
    else if e = '\\' then parseStrBody ('\\' :: acc) rest
    else if e = '/' then parseStrBody ('/' :: acc) rest
    else if e = 'n' then parseStrBody ('\n' :: acc) rest
    else if e = 't' then parseStrBody ('\t' :: acc) rest
    else if e = 'r' then parseStrBody ('\r' :: acc) rest
    else if e = 'b' then parseStrBody (Char.ofNat 8 :: acc) rest
    else if e = 'f' then parseStrBody (Char.ofNat 12 :: acc) rest
    else none
  | _, ['\\'] => none
  | acc, c :: rest => parseStrBody (c :: acc) rest

/-- Digit run to a natural number, returning the remainder. -/
def digitRun : Nat → List Char → Nat × List Char
  | acc, [] => (acc, [])
  | acc, c :: rest =>
    if c.isDigit then digitRun (acc * 10 + (c.toNat - '0'.toNat)) rest
    else (acc, c :: rest)

/-- Integer literal per the JSON grammar (leading zeros rejected; a
following `.`, `e` or `E` would make a float, which this model rejects). -/
def parseIntNum (cs : List Char) : Option (Int × List Char) :=
  let core : List Char → Option (Nat × List Char) := fun ds =>
    match ds with
    | c :: rest =>
      if c.isDigit then
        if c = '0' && (match rest with | d :: _ => d.isDigit | [] => false) then none
        else
          let (n, rest') := digitRun 0 (c :: rest)
          match rest' with
          | e :: _ => if e = '.' ∨ e = 'e' ∨ e = 'E' then none else some (n, rest')
          | [] => some (n, rest')
      else none
    | [] => none
  match cs with
  | '-' :: rest => (core rest).map (fun (n, r) => (-(n : Int), r))
  | _ => (core cs).map (fun (n, r) => ((n : Int), r))

mutual

/-- One JSON value, leading whitespace allowed. -/
def parseVal : Nat → List Char → Option (Json × List Char)
  | 0, _ => none
  | fuel + 1, cs =>
    match skipWsJ cs with
    | '{' :: rest => (parseMembers fuel true rest).map (fun (f, r) => (Json.obj f, r))
    | '[' :: rest => (parseElems fuel true rest).map (fun (xs, r) => (Json.arr xs, r))
    | '"' :: rest => (parseStrBody [] rest).map (fun (s, r) => (Json.str s, r))
    | 'n' :: rest => (stripTok "ull".toList rest).map (fun r => (Json.null, r))
    | 't' :: rest => (stripTok "rue".toList rest).map (fun r => (Json.bool true, r))
    | 'f' :: rest => (stripTok "alse".toList rest).map (fun r => (Json.bool false, r))
    | cs' => (parseIntNum cs').map (fun (n, r) => (Json.num n, r))

/-- Elements of a JSON array after `[`; `first` is true before the first
element (allowing the empty array). -/
def parseElems : Nat → Bool → List Char → Option (List Json × List Char)
  | 0, _, _ => none
  | fuel + 1, first, cs =>
    match skipWsJ cs, first with
    | ']' :: rest, true => some ([], rest)
    | cs1, _ =>
      match parseVal fuel cs1 with
      | none => none
      | some (v, cs2) =>
        match skipWsJ cs2 with
        | ',' :: rest => (parseElems fuel false rest).map (fun (xs, r) => (v :: xs, r))
        | ']' :: rest => some ([v], rest)
        | _ => none

/-- Members of a JSON object after `{`. -/
def parseMembers : Nat → Bool → List Char → Option (List (String × Json) × List Char)
  | 0, _, _ => none
  | fuel + 1, first, cs =>
    match skipWsJ cs, first with
    | '}' :: rest, true => some ([], rest)
    | '"' :: cs1, _ =>
      match parseStrBody [] cs1 with
      | none => none
      | some (k, cs2) =>
        match skipWsJ cs2 with
        | ':' :: cs3 =>
          match parseVal fuel cs3 with
          | none => none
          | some (v, cs4) =>
            match skipWsJ cs4 with
            | ',' :: rest => (parseMembers fuel false rest).map (fun (f, r) => ((k, v) :: f, r))
            | '}' :: rest => some ([(k, v)], rest)
            | _ => none
        | _ => none
    | _, _ => none

end

/-- `json.loads`: parse a whole string as one JSON value, allowing
surrounding whitespace; `none` models a raised `JSONDecodeError`. -/
def jsonLoads (s : String) : Option Json :=
  match parseVal (2 * s.length + 8) s.toList with
  | some (v, rest) => if (skipWsJ rest).isEmpty then some v else none
  | none => none

/-! ## JSON Extractor
`Command.extract_json_from_text` of refine_calendar_data.py (lines
41-76).  The two regular expressions are modelled by deterministic
scanners.  For the fence pattern
 ` ```(?:json)?\s*(\{.*?\})\s*``` ` (with DOTALL) the greedy
`(?:json)?` and `\s*` need no backtracking because the token that
follows each of them (`\{`, resp. a backtick) cannot match the
characters they consume, and the lazy `.*?` is the usual
shortest-first scan for the closing brace whose tail matches. -/

/-- Python `\s` (ASCII): space, tab, newline, carriage return, form
feed (12), vertical tab (11). -/
def isPySpace (c : Char) : Bool :=
  c = ' ' || c = '\t' || c = '\n' || c = '\r' || c = Char.ofNat 12 || c = Char.ofNat 11

/-- Python `str.strip()` (ASCII whitespace), written over character
lists so that it reduces definitionally. -/
def pyStrip (s : String) : String :=
  String.mk (((s.toList.dropWhile isPySpace).reverse.dropWhile isPySpace).reverse)

/-- Python `int(string)` after stripping: an optional sign and a
non-empty digit run, over character lists so that it reduces
definitionally. -/
def strToInt? (s : String) : Option Int :=
  let digits : List Char → Option Int := fun ds =>
    if ds ≠ [] ∧ ds.all Char.isDigit then some ((digitRun 0 ds).1 : Int) else none
  match s.toList with
  | '-' :: ds => (digits ds).map (fun n => -n)
  | '+' :: ds => digits ds
  | ds => digits ds

/-- After the captured `\}`: `\s*` then the closing triple backtick. -/
def fenceClose (cs : List Char) : Bool :=
  (stripTok "```".toList (cs.dropWhile isPySpace)).isSome

/-- Lazy body scan of `(\{.*?\})`: the capture closes at the first `}`
whose tail matches `\s*` followed by the closing fence. -/
def fenceBody : List Char → List Char → Option String
  | _, [] => none
  | acc, c :: rest =>
    if c = '}' ∧ fenceClose rest then
      some (String.mk ('{' :: acc.reverse ++ ['}']))
    else fenceBody (c :: acc) rest

/-- Attempt the fence pattern anchored at this position. -/
def fenceAt (cs : List Char) : Option String :=
  match stripTok "```".toList cs with
  | none => none
  | some cs1 =>
    let cs2 := (stripTok "json".toList cs1).getD cs1
    match cs2.dropWhile isPySpace with
    | '{' :: rest => fenceBody [] rest
    | _ => none

/-- First (leftmost) capture of the fence pattern, i.e. `matches[0]` of
`re.findall` at refine_calendar_data.py:55-56. -/
def fenceFirstCapture : List Char → Option String
  | [] => none
  | c :: rest =>
    match fenceAt (c :: rest) with
    | some cap => some cap
    | none => fenceFirstCapture rest

/-- A character other than `{` and `}` (the `[^{}]` class). -/
def nonBrace (c : Char) : Bool := c ≠ '{' ∧ c ≠ '}'

/-- Loop of the brace pattern `\{[^{}]*(?:\{[^{}]*\}[^{}]*)*\}` after the
opening brace and first `[^{}]*` run: either close at `}`, or take one
one-level-nested `\{[^{}]*\}` group followed by `[^{}]*`, or fail (a
second nesting level or unclosed brace fails the whole match, as the
final `\}` cannot match a `{`). -/
def braceLoop : Nat → List Char → List Char → Option (String × List Char)
  | 0, _, _ => none
  | _ + 1, acc, '}' :: rest => some (String.mk (acc.reverse ++ ['}']), rest)
  | fuel + 1, acc, '{' :: rest =>
    let seg := rest.takeWhile nonBrace
    match rest.dropWhile nonBrace with
    | '}' :: rest2 =>
      let seg2 := rest2.takeWhile nonBrace
      braceLoop fuel ((seg2.reverse ++ '}' :: seg.reverse) ++ '{' :: acc)
        (rest2.dropWhile nonBrace)
    | _ => none
  | _ + 1, _, _ => none

/-- Attempt the brace pattern anchored at this position, returning the
match and the remainder after it. -/
def braceAt (cs : List Char) : Option (String × List Char) :=
  match cs with
  | '{' :: rest =>
    let seg := rest.takeWhile nonBrace
    braceLoop (cs.length + 1) (seg.reverse ++ ['{']) (rest.dropWhile nonBrace)
  | _ => none

/-- `re.findall` of the brace pattern: leftmost non-overlapping matches,
scanning on from the end of each match. -/
def braceFindall : Nat → List Char → List String
  | 0, _ => []
  | fuel + 1, cs =>
    match cs with
    | [] => []
    | c :: rest =>
      match braceAt (c :: rest) with
      | some (m, rest') => m :: braceFindall fuel rest'
      | none => braceFindall fuel rest

/-- All brace-pattern matches of a text. -/
def brace_candidates (text : String) : List String :=
  braceFindall (text.length + 1) text.toList

/-- Third stage of `extract_json_from_text` (lines 63-74): the first
brace candidate that parses to a dict containing both `school_name`
and `terms`. -/
def first_valid_brace : List String → Option Json
  | [] => none
  | m :: rest =>
    match jsonLoads m with
    | some (Json.obj f) =>
      if hasKey f "school_name" && hasKey f "terms" then some (Json.obj f)
      else first_valid_brace rest
    | _ => first_valid_brace rest

/-- `Command.extract_json_from_text` (refine_calendar_data.py:41-76):
direct parse, else first fenced block (only `matches[0]` is tried),
else first brace candidate with both keys, else `none`. -/
def extract_json_from_text (text : String) : Option Json :=
  if text = "" then none
  else
    match jsonLoads text with
    | some d => some d
    | none =>
      match fenceFirstCapture text.toList with
      | some cap =>
        (match jsonLoads cap with
         | some d => some d
         | none => first_valid_brace (brace_candidates text))
      | none => first_valid_brace (brace_candidates text)

/-! ## Per-record refinement dispatch
`Command.handle` of refine_calendar_data.py (lines 179-249), the
per-record decision logic. -/

/-- Outcome of processing one `SchoolData` record in
`refine_calendar_data.Command.handle`: a rejection with a reason string,
a refined document, an uncaught Python exception (`crash`), or the
silent drop of a record whose refinement returned a falsy value
(`dropped`, unreachable from `handle_record`). -/
inductive RecordOutcome where
  | invalid : String → RecordOutcome
  | refined : Json → RecordOutcome
  | crash : RecordOutcome
  | dropped : RecordOutcome

/-- Running `extract_json_from_text` on a dict value that need not be a
string (refine_calendar_data.py:200-209): a string is extracted; a falsy
non-string returns `None` via the `if not text` guard; a truthy
non-string raises `TypeError` inside `re.findall` (the direct
`json.loads` failure is swallowed by the bare `except`), uncaught. -/
def extract_on_value (v : Json) : Except Unit (Option Json) :=
  match v with
  | .str s => .ok (extract_json_from_text s)
  | v => if pyTruthy v then .error () else .ok none

/-- Extraction dispatch on a dict payload (refine_calendar_data.py:
196-209): already-canonical dict, else `text` key, else `raw` key, else
a single key with a string value, else no candidate. -/
def dispatch_extract (f : List (String × Json)) : Except Unit (Option Json) :=
  if hasKey f "school_name" && hasKey f "terms" then .ok (some (.obj f))
  else if hasKey f "text" then extract_on_value ((findVal f "text").getD .null)
  else if hasKey f "raw" then extract_on_value ((findVal f "raw").getD .null)
  else
    match f with
    | [(_, .str s)] => .ok (extract_json_from_text s)
    | _ => .ok none

/-- Steps of `handle` after extraction (refine_calendar_data.py:211-249):
`if not extracted_json` (Python truthiness, so a falsy candidate such as
the empty dict is also rejected) → "Could not extract JSON"; a candidate
failing validation → "Invalid format: <reason>"; otherwise the record is
refined (the refiner's own falsy guard cannot fire on a validated
candidate, see `handle_record_never_dropped`). -/
def outcome_of_candidate : Option Json → RecordOutcome
  | none => .invalid "Could not extract JSON"
  | some v =>
    if pyTruthy v = false then .invalid "Could not extract JSON"
    else
      match validate_calendar_format v with
      | (true, _) =>
        (match refine_data v with
         | some r => .refined r
         | none => .dropped)
      | (false, msg) => .invalid ("Invalid format: " ++ msg)

/-- Per-record logic of `refine_calendar_data.Command.handle`
(lines 179-249): `None` payload → "Data is NULL"; dict payloads go
through `dispatch_extract`; non-dict payloads produce no candidate. -/
def handle_record (data : Json) : RecordOutcome :=
  match data with
  | .null => .invalid "Data is NULL"
  | d =>
    match (match d with
           | .obj f => dispatch_extract f
           | _ => .ok none : Except Unit (Option Json)) with
    | .error _ => .crash
    | .ok cand => outcome_of_candidate cand

/-! ## Process-status reconciliation
`update_process_status.py` and `reset_scraper_flags_no_data.py`.  A
school's state is reduced to its workflow flags and its record payloads
ordered most-recent-first.  `third_scraper` is carried here because the
reset command and the admin read and write it, although `models.py`
declares no such field (see the claim about the data model). -/

/-- School state as the batch reconcilers see it. -/
structure SchoolSt where
  process : Bool
  second_scraper : Bool
  third_scraper : Bool
  records : List Json
deriving Repr

/-- `Command.has_valid_calendar_data` (update_process_status.py:26-42):
most recent record exists, payload truthy, dict with both keys, and
`terms` a non-empty list. -/
def has_valid_calendar_data (recs : List Json) : Bool :=
  match recs with
  | [] => false
  | data :: _ =>
    if pyTruthy data = false then false
    else
      match data with
      | .obj f =>
        if hasKey f "school_name" && hasKey f "terms" then
          match (findVal f "terms").getD (.arr []) with
          | .arr ts => !ts.isEmpty
          | _ => false
        else false
      | _ => false

/-- The promote set of `update_process_status.Command.handle`
(lines 73-97): valid data but `process=False`. -/
def promote_set (schools : List SchoolSt) : List SchoolSt :=
  schools.filter (fun s => has_valid_calendar_data s.records && !s.process)

/-- The demote set (lines 88-91): populated only under the opt-in
`--set-false` option. -/
def demote_set (set_false : Bool) (schools : List SchoolSt) : List SchoolSt :=
  schools.filter (fun s =>
    !has_valid_calendar_data s.records && s.process && set_false)

/-- The flag-reset set of `reset_scraper_flags_no_data.Command.handle`
(lines 24-31): no records at all, and at least one of the two
downstream flags currently true. -/
def reset_set (schools : List SchoolSt) : List SchoolSt :=
  schools.filter (fun s => s.records.isEmpty && (s.second_scraper || s.third_scraper))

/-- The update applied to the flag-reset set (line 57):
`update(second_scraper=False, third_scraper=False)`. -/
def apply_reset (s : SchoolSt) : SchoolSt :=
  { s with second_scraper := false, third_scraper := false }

/-! ## Data model field declarations
`schools/models.py` (lines 4-49) and the field names referenced by the
admin and the maintenance commands. -/

/-- The fields declared on the `School` model (models.py:4-49), in
declaration order. -/
def school_model_field_names : List String :=
  ["urn", "establishment_name", "local_authority", "establishment_status",
   "process", "website", "second_scraper"]

/-- The `BooleanField`s declared on `School` (models.py:25-28, 35-38). -/
def school_model_boolean_flags : List String := ["process", "second_scraper"]

/-- Flags referenced by the `Q(...) | Q(...)` filter of
`reset_scraper_flags_no_data.Command.handle` (lines 29-31). -/
def reset_command_filter_flags : List String := ["second_scraper", "third_scraper"]

/-- Flags assigned by `to_update.update(...)` of the same command
(line 57). -/
def reset_command_update_flags : List String := ["second_scraper", "third_scraper"]

/-- Flags the `SchoolAdmin.changelist_view` statistics filter on
(admin.py:24-50). -/
def admin_stats_filter_flags : List String :=
  ["process", "second_scraper", "third_scraper"]

/-- Columns of `SchoolAdmin.list_display` (admin.py:11-12). -/
def admin_list_display_fields : List String :=
  ["urn", "establishment_name", "local_authority", "establishment_status",
   "process", "second_scraper", "third_scraper"]

/-! ## HTTP endpoints (`schools/views.py`) -/

/-- A `School` row as the random-prompt endpoint reads it, with exactly
the model fields it touches. -/
structure SchoolRow where
  urn : Int
  process : Bool
  second_scraper : Bool
  website : Option String
deriving Repr, DecidableEq

/-- Candidate set of `get_random_school_prompt` (views.py:156-174): the
queryset `filter(process=True, second_scraper=False)` if non-empty, else
all schools. -/
def random_prompt_candidates (schools : List SchoolRow) : List SchoolRow :=
  let schools_not_processed := schools.filter (fun s => s.process && !s.second_scraper)
  if schools_not_processed.isEmpty then schools else schools_not_processed

/-- The 404 condition of `get_random_school_prompt` (views.py:167-171):
no candidate, which happens exactly when there are no schools at all. -/
def random_prompt_is_404 (schools : List SchoolRow) : Bool :=
  (random_prompt_candidates schools).isEmpty

/-- The persisted effect of `get_random_school_prompt` on the selected
school (views.py:176-178): the code sets the instance attribute
`third_scraper` and calls `save()`, but `third_scraper` is not a field of
the `School` model (models.py:4-49), so `save()` writes the model fields
unchanged — the stored row is untouched; in particular `process` is not
set. -/
def random_prompt_saved_row (s : SchoolRow) : SchoolRow := s

/-! ### `create_or_update_school_data` (views.py:199-291) -/

/-- Store state seen by the data endpoint: known school URNs and the
records, most recent first (a freshly created record is prepended). -/
structure DataDb where
  schools : List Int
  records : List (Int × Json)
deriving Repr

/-- The current (most recently created) record payload of a school:
`SchoolData.objects.filter(school=school).order_by('-created_at').first()`. -/
def current_record (db : DataDb) (urn : Int) : Option Json :=
  (db.records.find? (fun p => p.1 = urn)).map (fun p => p.2)

/-- Replace the payload of the school's current record
(`school_data.data = ...; school_data.save()`). -/
def set_current_record : List (Int × Json) → Int → Json → List (Int × Json)
  | [], _, _ => []
  | (u, p) :: rest, urn, payload =>
    if u = urn then (u, payload) :: rest
    else (u, p) :: set_current_record rest urn payload

/-- Python `{**existing, **data}`: keys of `existing` in order with
values overridden by `data`, then the new keys of `data` in order. -/
def merge_dicts (a b : List (String × Json)) : List (String × Json) :=
  a.map (fun kv => (kv.1, (findVal b kv.1).getD kv.2)) ++
    b.filter (fun kv => hasKey a kv.1 = false)

/-- Coercion of the `school_id` value by `School.objects.get(urn=...)`:
ints (and bools, an int subclass) are accepted, numeric strings are
converted, other strings raise `ValueError` (caught → 400), and
list/dict values raise an uncaught `TypeError`. -/
inductive UrnParse where
  | ok : Int → UrnParse
  | valueError : UrnParse
  | typeError : UrnParse
deriving Repr, DecidableEq

/-- Parse a JSON `school_id` value as the `urn` lookup does. -/
def urn_of_json : Json → UrnParse
  | .num n => .ok n
  | .bool b => .ok (if b then 1 else 0)
  | .str s => match strToInt? s with | some n => .ok n | none => .valueError
  | _ => .typeError

/-- Response of the data endpoint: an HTTP status with action and echoed
payload on success, a bare error status, or an uncaught exception. -/
inductive PostResult where
  | ok : Nat → String → Json → PostResult
  | err : Nat → PostResult
  | crash : PostResult
deriving Repr

/-- Python `x is None` on a JSON value. -/
def isNull : Json → Bool
  | .null => true
  | _ => false

/-- `create_or_update_school_data` (views.py:199-291).  The request body
is given as the result of `json.loads` (`none` = `JSONDecodeError` →
400).  A non-dict body crashes at `body_data.get` (`AttributeError`);
a truthy non-dict existing payload crashes at the dict merge
(`TypeError`).  Note `body_data.get` returns `None` both for an absent
key and for an explicit JSON null, so both are rejected alike. -/
def create_or_update_school_data (db : DataDb) (body : Option Json) :
    PostResult × DataDb :=
  match body with
  | none => (.err 400, db)
  | some (.obj bf) =>
    let sid := (findVal bf "school_id").getD .null
    if isNull sid then (.err 400, db)
    else
      let d := (findVal bf "data").getD .null
      if isNull d then (.err 400, db)
      else
      match d with
      | .obj df =>
        (match urn_of_json sid with
         | .valueError => (.err 400, db)
         | .typeError => (.crash, db)
         | .ok urn =>
           if db.schools.contains urn then
             match current_record db urn with
             | some existing =>
               if pyTruthy existing = false then
                 let merged := Json.obj (merge_dicts [] df)
                 (.ok 200 "updated" merged,
                  { db with records := set_current_record db.records urn merged })
               else
                 (match existing with
                  | .obj ef =>
                    let merged := Json.obj (merge_dicts ef df)
                    (.ok 200 "updated" merged,
                     { db with records := set_current_record db.records urn merged })
                  | _ => (.crash, db))
             | none =>
               (.ok 201 "created" (.obj df),
                { db with records := (urn, .obj df) :: db.records })
           else (.err 404, db))
      | _ => (.err 400, db)
  | some _ => (.crash, db)

/-! ## CSV import and export
`import_schools.py` (lines 74-152) and
`export_calendar_csv.Command.extract_school_info` (lines 22-83). -/

/-- A CSV row as `csv.DictReader` yields it. -/
abbrev CsvRow := List (String × String)

/-- String-valued first-match lookup for CSV rows. -/
def findStr (row : CsvRow) (k : String) : Option String :=
  match row with
  | [] => none
  | (k', v) :: rest => if k' = k then some v else findStr rest k

/-- `row.get(k, '').strip()` as used throughout `import_schools`. -/
def rowGet (row : CsvRow) (k : String) : String := pyStrip ((findStr row k).getD "")

/-- Store state seen by the importer. -/
structure ImportDb where
  schools : List Int
  records : List (Int × Json)
deriving Repr

/-- The cleaned JSON object `import_schools.Command.handle` assembles
from a row (lines 129-136): stripped values, empty ones as null. -/
def clean_row_json (row : CsvRow) : Json :=
  .obj (row.map (fun kv =>
    (kv.1, if pyStrip kv.2 = "" then Json.null else Json.str (pyStrip kv.2))))

/-- One loop iteration of `import_schools.Command.handle` (lines 76-143):
skip blank or non-integer URN, skip existing URN, skip missing
establishment name, else create the School row.  The cleaned JSON object
of lines 129-136 is assembled but never stored: `records` is untouched. -/
def import_row (db : ImportDb) (row : CsvRow) : ImportDb :=
  let urnStr := rowGet row "URN"
  if urnStr = "" then db
  else
    match strToInt? urnStr with
    | none => db
    | some urn =>
      if db.schools.contains urn then db
      else if rowGet row "EstablishmentName" = "" then db
      else { db with schools := urn :: db.schools }

/-- The whole import sweep. -/
def import_rows (db : ImportDb) (rows : List CsvRow) : ImportDb :=
  rows.foldl import_row db

/-- The records of one school, most recent first. -/
def records_for (records : List (Int × Json)) (urn : Int) : List Json :=
  (records.filter (fun p => p.1 = urn)).map (fun p => p.2)

/-- Lookup of `export_calendar_csv.Command.extract_school_info`
(lines 30-41): the most recent record whose payload is a truthy dict
containing `URN` or `EstablishmentName`. -/
def find_original_data (recs : List Json) : Option Json :=
  recs.findSome? (fun d =>
    match d with
    | .obj f =>
      if pyTruthy (.obj f) && (hasKey f "URN" || hasKey f "EstablishmentName")
      then some (.obj f) else none
    | _ => none)

/-! ## Shared example documents -/

/-- Whether a JSON value is a list (`isinstance(x, list)`). -/
def isArr : Json → Bool
  | .arr _ => true
  | _ => false

/-- The spec's empty-terms document
`{"school_name":"A","source_url":"u","terms":[]}`. -/
def docEmptyTerms : Json :=
  .obj [("school_name", .str "A"), ("source_url", .str "u"), ("terms", .arr [])]

/-- The spec's one-term/one-event example document. -/
def exampleDoc : Json :=
  .obj [("school_name", .str "A"), ("source_url", .str "u"),
    ("terms", .arr [
      .obj [("academic_year", .str "2024-2025"), ("term_name", .str "Autumn"),
        ("events", .arr [
          .obj [("start_date", .str "2024-09-01"),
                ("event_text", .str "Start of term")]])]])]

/-! ## Claim theorems -/

/-- Claim C2: the claim says `third_scraper` is a field of `School`; in
`models.py` the `School` model declares exactly two boolean workflow
flags, `process` and `second_scraper`, and no `third_scraper` field at
all, while the reset command's filter and update and the admin
statistics and list display all reference `third_scraper` — evaluating
the declarations shows the mismatch the claim's operations run into. -/
theorem C2_third_scraper_not_a_model_field :
    school_model_boolean_flags = ["process", "second_scraper"]
    ∧ "third_scraper" ∉ school_model_field_names
    ∧ "third_scraper" ∈ reset_command_filter_flags
    ∧ "third_scraper" ∈ reset_command_update_flags
    ∧ "third_scraper" ∈ admin_stats_filter_flags
    ∧ "third_scraper" ∈ admin_list_display_fields := by decide

/-- School with `process=False` (the one the claim says the random
prompt endpoint must prefer). -/
def schoolA : SchoolRow :=
  { urn := 1, process := false, second_scraper := false,
    website := some "https://a.example" }

/-- School with `process=True, second_scraper=False` (the one the code's
queryset actually selects). -/
def schoolB : SchoolRow :=
  { urn := 2, process := true, second_scraper := false,
    website := some "https://b.example" }

/-- Claim C1: the claim says `GET /schools/random/prompt/` prefers
schools with `process=false` and sets the selected school's `process`
flag to true.  Evaluating the code on a database holding `schoolA`
(`process=false`) and `schoolB` (`process=true, second_scraper=false`)
shows the candidate set is `[schoolB]` — the `process=false` school is
excluded, not preferred — and the persisted row of the selected school
is unchanged (the endpoint assigns only a `third_scraper` attribute that
is not a `School` model field, so `save()` writes no flag change); the
404 condition (empty database) is as claimed. -/
theorem C1_random_prompt_code_divergence :
    random_prompt_candidates [schoolA, schoolB] = [schoolB]
    ∧ schoolA.process = false
    ∧ schoolA ∉ random_prompt_candidates [schoolA, schoolB]
    ∧ random_prompt_candidates [schoolA] = [schoolA]
    ∧ (random_prompt_saved_row schoolA).process = false
    ∧ random_prompt_saved_row schoolB = schoolB
    ∧ random_prompt_is_404 [] = true
    ∧ random_prompt_is_404 [schoolA, schoolB] = false := by decide

/-- Claim C3: `validate_calendar_format` checks in the claimed order
with short-circuit at the first failure and exactly the stated reasons:
non-dict; missing `school_name`, `source_url`, `terms` in that order;
`terms` not a list; `terms` empty; per term in order (dict, the three
fields, events a list) with the term's events checked in order (dict,
`start_date` then `event_text`) before the next term; and the three
concrete examples of the claim. -/
theorem C3_validate_checks_in_order :
    (∀ d : Json, isObj d = false →
      validate_calendar_format d = (false, "Not a dictionary"))
    ∧ (∀ f, hasKey f "school_name" = false →
      validate_calendar_format (.obj f) = (false, "Missing required field: school_name"))
    ∧ (∀ f, hasKey f "school_name" = true → hasKey f "source_url" = false →
      validate_calendar_format (.obj f) = (false, "Missing required field: source_url"))
    ∧ (∀ f, hasKey f "school_name" = true → hasKey f "source_url" = true →
      hasKey f "terms" = false →
      validate_calendar_format (.obj f) = (false, "Missing required field: terms"))
    ∧ (∀ f v, hasKey f "school_name" = true → hasKey f "source_url" = true →
      findVal f "terms" = some v → isArr v = false →
      validate_calendar_format (.obj f) = (false, "terms must be a list"))
    ∧ (∀ f, hasKey f "school_name" = true → hasKey f "source_url" = true →
      findVal f "terms" = some (.arr []) →
      validate_calendar_format (.obj f) = (false, "terms array is empty (no terms data)"))
    ∧ (∀ f ts, hasKey f "school_name" = true → hasKey f "source_url" = true →
      findVal f "terms" = some (.arr ts) → ts ≠ [] →
      validate_calendar_format (.obj f) = validateTerms ts)
    ∧ (∀ t rest, isObj t = false →
      validateTerms (t :: rest) = (false, "Term must be a dictionary"))
    ∧ (∀ g rest,
      (hasKey g "academic_year" && hasKey g "term_name" && hasKey g "events") = false →
      validateTerms (.obj g :: rest) = (false, "Term missing required fields"))
    ∧ (∀ g rest v,
      (hasKey g "academic_year" && hasKey g "term_name" && hasKey g "events") = true →
      findVal g "events" = some v → isArr v = false →
      validateTerms (.obj g :: rest) = (false, "Events must be a list"))
    ∧ (∀ g rest evs m,
      (hasKey g "academic_year" && hasKey g "term_name" && hasKey g "events") = true →
      findVal g "events" = some (.arr evs) → validateEvents evs = (false, m) →
      validateTerms (.obj g :: rest) = (false, m))
    ∧ (∀ g rest evs s,
      (hasKey g "academic_year" && hasKey g "term_name" && hasKey g "events") = true →
      findVal g "events" = some (.arr evs) → validateEvents evs = (true, s) →
      validateTerms (.obj g :: rest) = validateTerms rest)
    ∧ (∀ e rest, isObj e = false →
      validateEvents (e :: rest) = (false, "Event must be a dictionary"))
    ∧ (∀ g rest, hasKey g "start_date" = false →
      validateEvents (.obj g :: rest) = (false, "Event missing required field: start_date"))
    ∧ (∀ g rest, hasKey g "start_date" = true → hasKey g "event_text" = false →
      validateEvents (.obj g :: rest) = (false, "Event missing required field: event_text"))
    ∧ (∀ g rest, hasKey g "start_date" = true → hasKey g "event_text" = true →
      validateEvents (.obj g :: rest) = validateEvents rest)
    ∧ validate_calendar_format (Json.obj []) = (false, "Missing required field: school_name")
    ∧ validate_calendar_format docEmptyTerms = (false, "terms array is empty (no terms data)")
    ∧ validate_calendar_format exampleDoc = (true, "Valid") := by
  refine ⟨?_, ?_, ?_, ?_, ?_, ?_, ?_, ?_, ?_, ?_, ?_, ?_, ?_, ?_, ?_, ?_, rfl, rfl, rfl⟩
  · intro d h; cases d <;> simp [isObj, validate_calendar_format] at h ⊢
  · intro f h; simp [validate_calendar_format, h]
  · intro f h1 h2; simp [validate_calendar_format, h1, h2]
  · intro f h1 h2 h3; simp [validate_calendar_format, h1, h2, h3]
  · intro f v h1 h2 h3 h4
    have hk : hasKey f "terms" = true := by simp [hasKey, h3]
    cases v <;> simp [isArr] at h4 <;>
      simp [validate_calendar_format, h1, h2, hk, h3]
  · intro f h1 h2 h3
    have hk : hasKey f "terms" = true := by simp [hasKey, h3]
    simp [validate_calendar_format, h1, h2, hk, h3, List.isEmpty]
  · intro f ts h1 h2 h3 h4
    have hk : hasKey f "terms" = true := by simp [hasKey, h3]
    cases ts with
    | nil => exact absurd rfl h4
    | cons t ts' => simp [validate_calendar_format, h1, h2, hk, h3, List.isEmpty]
  · intro t rest h; cases t <;> simp [isObj, validateTerms] at h ⊢
  · intro g rest h; simp [validateTerms, h]
  · intro g rest v h1 h2 h3
    cases v <;> simp [isArr] at h3 <;> simp [validateTerms, h1, h2]
  · intro g rest evs m h1 h2 h3; simp [validateTerms, h1, h2, h3]
  · intro g rest evs s h1 h2 h3; simp [validateTerms, h1, h2, h3]
  · intro e rest h; cases e <;> simp [isObj, validateEvents] at h ⊢
  · intro g rest h; simp [validateEvents, h]
  · intro g rest h1 h2; simp [validateEvents, h1, h2]
  · intro g rest h1 h2; simp [validateEvents, h1, h2]

/-- Witness for C3: the ordering theorem applied at concrete inputs —
a document missing `source_url` but having `school_name` fails with the
`source_url` reason. -/
theorem C3_validate_checks_in_order_witness :
    hasKey [("school_name", Json.str "A")] "school_name" = true
    ∧ hasKey [("school_name", Json.str "A")] "source_url" = false
    ∧ validate_calendar_format (Json.obj [("school_name", Json.str "A")]) =
        (false, "Missing required field: source_url") :=
  ⟨rfl, rfl, C3_validate_checks_in_order.2.2.1 _ rfl rfl⟩

/-- The source refiner's term rebuild and the spec's normalization of a
term are the same function. -/
theorem refine_term_eq_normalize_term : refine_term = normalize_term := rfl

/-- The source refiner's event rebuild and the spec's normalization of
an event are the same function. -/
theorem refine_event_eq_normalize_event : refine_event = normalize_event := rfl

/-- Events that pass validation still pass after normalization. -/
theorem validateEvents_norm (evs : List Json)
    (h : (validateEvents evs).1 = true) :
    validateEvents (evs.map normalize_event) = (true, "Valid") := by
  induction evs with
  | nil => rfl
  | cons e rest ih =>
    cases e with
    | obj g =>
      cases h1 : hasKey g "start_date" with
      | false => simp [validateEvents, h1] at h
      | true =>
        cases h2 : hasKey g "event_text" with
        | false => simp [validateEvents, h1, h2] at h
        | true =>
          have h3 : (validateEvents rest).1 = true := by
            simpa [validateEvents, h1, h2] using h
          simpa [validateEvents, normalize_event, hasKey, findVal] using ih h3
    | null => simp [validateEvents] at h
    | bool b => simp [validateEvents] at h
    | num n => simp [validateEvents] at h
    | str s => simp [validateEvents] at h
    | arr xs => simp [validateEvents] at h

/-- Terms that pass validation still pass after normalization. -/
theorem validateTerms_norm (ts : List Json)
    (h : (validateTerms ts).1 = true) :
    validateTerms (ts.map normalize_term) = (true, "Valid") := by
  induction ts with
  | nil => rfl
  | cons t rest ih =>
    cases t with
    | obj g =>
      cases h1 : (hasKey g "academic_year" && hasKey g "term_name" && hasKey g "events") with
      | false => simp [validateTerms, h1] at h
      | true =>
        cases hv : findVal g "events" with
        | none => simp [validateTerms, h1, hv] at h
        | some v =>
          cases v with
          | arr evs =>
            cases hev : validateEvents evs with
            | mk b m =>
              cases b with
              | false => simp [validateTerms, h1, hv, hev] at h
              | true =>
                have h3 : (validateTerms rest).1 = true := by
                  simpa [validateTerms, h1, hv, hev] using h
                have hevs : (validateEvents evs).1 = true := by simp [hev]
                have hmap := validateEvents_norm evs hevs
                simpa [validateTerms, normalize_term, hasKey, findVal, getJ, asList,
                  hv, hmap] using ih h3
          | null => simp [validateTerms, h1, hv] at h
          | bool b => simp [validateTerms, h1, hv] at h
          | num n => simp [validateTerms, h1, hv] at h
          | str s => simp [validateTerms, h1, hv] at h
          | obj g2 => simp [validateTerms, h1, hv] at h
    | null => simp [validateTerms] at h
    | bool b => simp [validateTerms] at h
    | num n => simp [validateTerms] at h
    | str s => simp [validateTerms] at h
    | arr xs => simp [validateTerms] at h

/-- Claim C6: on every document that validates, `refine_data` returns
exactly the spec's normalized document, and the normalized document
validates again (idempotence of refinement on already-valid input). -/
theorem C6_refine_normalizes_valid_input (d : Json)
    (h : validate_calendar_format d = (true, "Valid")) :
    refine_data d = some (normalizeDoc d)
    ∧ validate_calendar_format (normalizeDoc d) = (true, "Valid") := by
  cases d with
  | obj f =>
    cases h1 : hasKey f "school_name" with
    | false => simp [validate_calendar_format, h1] at h
    | true =>
      cases h2 : hasKey f "source_url" with
      | false => simp [validate_calendar_format, h1, h2] at h
      | true =>
        cases h3 : hasKey f "terms" with
        | false => simp [validate_calendar_format, h1, h2, h3] at h
        | true =>
          cases hv : findVal f "terms" with
          | none => simp [hasKey, hv] at h3
          | some v =>
            cases v with
            | arr ts =>
              cases hts : ts.isEmpty with
              | true => simp [validate_calendar_format, h1, h2, h3, hv, hts] at h
              | false =>
                have hvt : validateTerms ts = (true, "Valid") := by
                  simpa [validate_calendar_format, h1, h2, h3, hv, hts] using h
                have hne : f.isEmpty = false := by
                  cases f with
                  | nil => simp [hasKey, findVal] at h1
                  | cons a l => rfl
                constructor
                · simp [refine_data, pyTruthy, hne, normalizeDoc,
                    refine_term_eq_normalize_term]
                · have hvt1 : (validateTerms ts).1 = true := by simp [hvt]
                  have hmap := validateTerms_norm ts hvt1
                  cases ts with
                  | nil => simp [List.isEmpty] at hts
                  | cons t ts' =>
                    simpa [normalizeDoc, validate_calendar_format, hasKey, findVal,
                      getJ, asList, hv] using hmap
            | null => simp [validate_calendar_format, h1, h2, h3, hv] at h
            | bool b => simp [validate_calendar_format, h1, h2, h3, hv] at h
            | num n => simp [validate_calendar_format, h1, h2, h3, hv] at h
            | str s => simp [validate_calendar_format, h1, h2, h3, hv] at h
            | obj g => simp [validate_calendar_format, h1, h2, h3, hv] at h
  | null => simp [validate_calendar_format] at h
  | bool b => simp [validate_calendar_format] at h
  | num n => simp [validate_calendar_format] at h
  | str s => simp [validate_calendar_format] at h
  | arr xs => simp [validate_calendar_format] at h

/-- Witness for C6: the refinement theorem applied to the spec's
one-term/one-event example document. -/
theorem C6_refine_normalizes_valid_input_witness :
    validate_calendar_format exampleDoc = (true, "Valid")
    ∧ refine_data exampleDoc = some (normalizeDoc exampleDoc)
    ∧ validate_calendar_format (normalizeDoc exampleDoc) = (true, "Valid") :=
  ⟨rfl, (C6_refine_normalizes_valid_input exampleDoc rfl).1,
    (C6_refine_normalizes_valid_input exampleDoc rfl).2⟩

/-- Claim C4: `extract_json_from_text` is total and tries, in order,
the direct parse (returned as-is whatever its shape), then the first
fenced block (`matches[0]`, returned if it parses), then the first
brace-delimited candidate that parses to a dict with both `school_name`
and `terms` keys, else `none`; with the claim's concrete examples. -/
theorem C4_extract_strategy_order :
    (∀ t d, t ≠ "" → jsonLoads t = some d → extract_json_from_text t = some d)
    ∧ (∀ t cap d, t ≠ "" → jsonLoads t = none →
        fenceFirstCapture t.toList = some cap → jsonLoads cap = some d →
        extract_json_from_text t = some d)
    ∧ (∀ t, t ≠ "" → jsonLoads t = none → fenceFirstCapture t.toList = none →
        extract_json_from_text t = first_valid_brace (brace_candidates t))
    ∧ (∀ t cap, t ≠ "" → jsonLoads t = none →
        fenceFirstCapture t.toList = some cap → jsonLoads cap = none →
        extract_json_from_text t = first_valid_brace (brace_candidates t))
    ∧ first_valid_brace [] = none
    ∧ (∀ m rest f, jsonLoads m = some (.obj f) →
        (hasKey f "school_name" && hasKey f "terms") = true →
        first_valid_brace (m :: rest) = some (.obj f))
    ∧ (∀ m rest f, jsonLoads m = some (.obj f) →
        (hasKey f "school_name" && hasKey f "terms") = false →
        first_valid_brace (m :: rest) = first_valid_brace rest)
    ∧ (∀ m rest, jsonLoads m = none →
        first_valid_brace (m :: rest) = first_valid_brace rest)
    ∧ (∀ m rest d, jsonLoads m = some d → isObj d = false →
        first_valid_brace (m :: rest) = first_valid_brace rest)
    ∧ extract_json_from_text "" = none
    ∧ extract_json_from_text "hello world" = none
    ∧ extract_json_from_text "```json\n\x7b\"school_name\":\"A\",\"terms\":[]\x7d\n```" =
        some (.obj [("school_name", .str "A"), ("terms", .arr [])]) := by
  refine ⟨?_, ?_, ?_, ?_, rfl, ?_, ?_, ?_, ?_, rfl, rfl, rfl⟩
  · intro t d h1 h2; simp [extract_json_from_text, h1, h2]
  · intro t cap d h1 h2 h3 h4
    simp only [String.toList] at h3
    simp [extract_json_from_text, h1, h2, h3, h4]
  · intro t h1 h2 h3
    simp only [String.toList] at h3
    simp [extract_json_from_text, h1, h2, h3]
  · intro t cap h1 h2 h3 h4
    simp only [String.toList] at h3
    simp [extract_json_from_text, h1, h2, h3, h4]
  · intro m rest f h1 h2; simp [first_valid_brace, h1, h2]
  · intro m rest f h1 h2; simp [first_valid_brace, h1, h2]
  · intro m rest h1; simp [first_valid_brace, h1]
  · intro m rest d h1 h2
    cases d <;> simp [isObj] at h2 <;> simp [first_valid_brace, h1]

/-- Witness for C4: the strategy theorem applied to the direct-parse
stage at the input `"null"`. -/
theorem C4_extract_strategy_order_witness :
    ("null" : String) ≠ "" ∧ jsonLoads "null" = some Json.null
    ∧ extract_json_from_text "null" = some Json.null :=
  ⟨by decide, rfl, C4_extract_strategy_order.1 "null" Json.null (by decide) rfl⟩

/-- Counterexample for claim C5: the payload `{"text": "{}"}` extracts
the empty object, which is Python-falsy, so `handle` reports
"Could not extract JSON" — not "Invalid format: Missing required field:
school_name" as the claim states. -/
theorem C5_counterexample_falsy_candidate :
    handle_record (.obj [("text", .str "\x7b\x7d")]) =
      .invalid "Could not extract JSON"
    ∧ RecordOutcome.invalid "Could not extract JSON" ≠
      RecordOutcome.invalid "Invalid format: Missing required field: school_name" := by
  refine ⟨rfl, ?_⟩
  intro hc
  injection hc with h
  simp at h

/-- Claim C5 as amended: the refiner dispatches in the claimed order
(null payload; already-canonical dict; `text` key; `raw` key; single
string-valued key; else no candidate), but the "Could not extract JSON"
rejection fires whenever extraction yields nothing **or a Python-falsy
candidate** (such as the empty object); a truthy candidate failing
validation is rejected as "Invalid format: <reason>"; in particular
`{"text": "{}"}` is rejected as "Could not extract JSON". -/
theorem C5_dispatch_order_amended :
    handle_record Json.null = .invalid "Data is NULL"
    ∧ (∀ f, (hasKey f "school_name" && hasKey f "terms") = true →
        handle_record (.obj f) = outcome_of_candidate (some (.obj f)))
    ∧ (∀ f s, (hasKey f "school_name" && hasKey f "terms") = false →
        findVal f "text" = some (.str s) →
        handle_record (.obj f) = outcome_of_candidate (extract_json_from_text s))
    ∧ (∀ f s, (hasKey f "school_name" && hasKey f "terms") = false →
        hasKey f "text" = false → findVal f "raw" = some (.str s) →
        handle_record (.obj f) = outcome_of_candidate (extract_json_from_text s))
    ∧ (∀ k s, (hasKey [(k, Json.str s)] "school_name"
          && hasKey [(k, Json.str s)] "terms") = false →
        hasKey [(k, Json.str s)] "text" = false →
        hasKey [(k, Json.str s)] "raw" = false →
        handle_record (.obj [(k, .str s)]) =
          outcome_of_candidate (extract_json_from_text s))
    ∧ (∀ f, (hasKey f "school_name" && hasKey f "terms") = false →
        hasKey f "text" = false → hasKey f "raw" = false →
        (∀ k s, f ≠ [(k, .str s)]) →
        handle_record (.obj f) = .invalid "Could not extract JSON")
    ∧ (∀ d, isObj d = false → d ≠ .null →
        handle_record d = .invalid "Could not extract JSON")
    ∧ outcome_of_candidate none = .invalid "Could not extract JSON"
    ∧ (∀ v, pyTruthy v = false →
        outcome_of_candidate (some v) = .invalid "Could not extract JSON")
    ∧ (∀ v m, pyTruthy v = true → validate_calendar_format v = (false, m) →
        outcome_of_candidate (some v) = .invalid ("Invalid format: " ++ m))
    ∧ (∀ v s, pyTruthy v = true → validate_calendar_format v = (true, s) →
        ∃ r, refine_data v = some r ∧ outcome_of_candidate (some v) = .refined r)
    ∧ handle_record (.obj [("text", .str "\x7b\x7d")]) =
        .invalid "Could not extract JSON" := by
  refine ⟨rfl, ?_, ?_, ?_, ?_, ?_, ?_, rfl, ?_, ?_, ?_, rfl⟩
  · intro f h1; simp [handle_record, dispatch_extract, h1]
  · intro f s h1 h2
    have hk : hasKey f "text" = true := by simp [hasKey, h2]
    simp [handle_record, dispatch_extract, h1, hk, h2, extract_on_value]
  · intro f s h1 h2 h3
    have hk : hasKey f "raw" = true := by simp [hasKey, h3]
    simp [handle_record, dispatch_extract, h1, h2, hk, h3, extract_on_value]
  · intro k s h1 h2 h3
    simp [handle_record, dispatch_extract, h1, h2, h3]
  · intro f h1 h2 h3 h4
    have : (match f with
            | [(_, Json.str s)] => Except.ok (extract_json_from_text s)
            | _ => (Except.ok none : Except Unit (Option Json))) = .ok none := by
      match f with
      | [] => rfl
      | [(k, Json.str s)] => exact absurd rfl (h4 k s)
      | [(k, Json.null)] => rfl
      | [(k, Json.bool b)] => rfl
      | [(k, Json.num n)] => rfl
      | [(k, Json.arr xs)] => rfl
      | [(k, Json.obj g)] => rfl
      | (k, Json.null) :: b :: rest => rfl
      | (k, Json.bool bb) :: b :: rest => rfl
      | (k, Json.num n) :: b :: rest => rfl
      | (k, Json.str s) :: b :: rest => rfl
      | (k, Json.arr xs) :: b :: rest => rfl
      | (k, Json.obj g) :: b :: rest => rfl
    simp [handle_record, dispatch_extract, h1, h2, h3, this, outcome_of_candidate]
  · intro d h1 h2
    cases d with
    | null => exact absurd rfl h2
    | obj f => simp [isObj] at h1
    | bool b => rfl
    | num n => rfl
    | str s => rfl
    | arr xs => rfl
  · intro v h1; simp [outcome_of_candidate, h1]
  · intro v m h1 h2; simp [outcome_of_candidate, h1, h2]
  · intro v s h1 h2
    refine ⟨Json.obj [
      ("school_name", getJ v "school_name" (.str "")),
      ("source_url", getJ v "source_url" (.str "")),
      ("terms", .arr ((asList (getJ v "terms" (.arr []))).map refine_term))], ?_, ?_⟩
    · simp [refine_data, h1]
    · simp [outcome_of_candidate, h1, h2, refine_data]

/-- Witness for C5: the amended dispatch theorem applied to the payload
`{"text": "hi"}`, whose extraction finds nothing. -/
theorem C5_dispatch_order_amended_witness :
    (hasKey [("text", Json.str "hi")] "school_name"
      && hasKey [("text", Json.str "hi")] "terms") = false
    ∧ handle_record (Json.obj [("text", Json.str "hi")]) =
        outcome_of_candidate (extract_json_from_text "hi") :=
  ⟨rfl, C5_dispatch_order_amended.2.2.1 [("text", Json.str "hi")] "hi" rfl rfl⟩

/-- Counterexample for claim C7: the consumers do not all assign the
same category to the empty-object payload — the invalid-data report
classifies it EMPTY, but the admin per-record display, the admin
summary and the CSV export classify it NULL (their `if not data` test
treats the falsy empty dict like `None`). -/
theorem C7_counterexample_empty_object :
    report_status (Json.obj []) = Category.empty
    ∧ data_status (Json.obj []) = Category.nullData
    ∧ summary_category (Json.obj []) = Category.nullData
    ∧ export_status (Json.obj []) = Category.nullData
    ∧ Category.empty ≠ Category.nullData := by
  exact ⟨rfl, rfl, rfl, rfl, by decide⟩

/-- Claim C7 as amended: the spec classifier is a pure total function
into the five claimed categories; the admin per-record display and the
admin summary agree everywhere; on null and object payloads they equal
the spec classifier with EMPTY merged into NULL; the CSV export agrees
with the display except that an object with both keys whose `terms` is
not a list is exported as Invalid instead of Empty Terms; the
invalid-data report distinguishes NULL and EMPTY exactly as the spec
classifier; and the empty-object payload is EMPTY in the report but
NULL for the three admin consumers. -/
theorem C7_classification_amended :
    (∀ p, classify p ≠ Category.jsonOk)
    ∧ (∀ p, data_status p = summary_category p)
    ∧ (∀ p, isObj p = true ∨ p = Json.null →
        data_status p = mergeEmpty (classify p))
    ∧ (∀ p, export_status p = data_status p
        ∨ (export_status p = Category.invalid
           ∧ data_status p = Category.refinedEmptyTerms))
    ∧ (∀ f v, (hasKey f "school_name" && hasKey f "terms") = true →
        findVal f "terms" = some v → isArr v = false →
        export_status (.obj f) = Category.invalid
        ∧ data_status (.obj f) = Category.refinedEmptyTerms)
    ∧ (∀ p, report_status p = Category.nullData ↔ classify p = Category.nullData)
    ∧ (∀ p, report_status p = Category.empty ↔ classify p = Category.empty)
    ∧ report_status (Json.obj []) = Category.empty
    ∧ data_status (Json.obj []) = Category.nullData
    ∧ export_status (Json.obj []) = Category.nullData := by
  refine ⟨?_, fun p => rfl, ?_, ?_, ?_, ?_, ?_, rfl, rfl, rfl⟩
  · intro p
    cases p with
    | obj f =>
      simp only [classify]
      by_cases h1 : f.isEmpty
      · simp [h1]
      · by_cases h2 : (hasKey f "school_name" && hasKey f "terms") = true
        · simp only [h1, h2]
          cases hv : (findVal f "terms").getD (.arr []) with
          | arr ts => by_cases h3 : ts.isEmpty <;> simp [h1, h3]
          | null => simp [h1]
          | bool b => simp [h1]
          | num n => simp [h1]
          | str s => simp [h1]
          | obj g => simp [h1]
        · simp [h1, h2]
    | null => simp [classify]
    | bool b => simp [classify]
    | num n => simp [classify]
    | str s => simp [classify]
    | arr xs => simp [classify]
  · intro p hp
    rcases hp with hobj | hnull
    · cases p with
      | obj f =>
        cases hf : f.isEmpty with
        | true =>
          have : f = [] := by simpa [List.isEmpty_iff] using hf
          subst this
          rfl
        | false =>
          have hne : pyTruthy (.obj f) = true := by simp [pyTruthy, hf]
          by_cases h2 : (hasKey f "school_name" && hasKey f "terms") = true
          · simp only [data_status, classify, hne, hf, h2]
            cases hv : (findVal f "terms").getD (.arr []) with
            | arr ts => by_cases h3 : ts.isEmpty <;> simp [h3, mergeEmpty]
            | null => simp [mergeEmpty]
            | bool b => simp [mergeEmpty]
            | num n => simp [mergeEmpty]
            | str s => simp [mergeEmpty]
            | obj g => simp [mergeEmpty]
          · simp [data_status, classify, mergeEmpty, hne, hf, h2]
      | null => simp [isObj] at hobj
      | bool b => simp [isObj] at hobj
      | num n => simp [isObj] at hobj
      | str s => simp [isObj] at hobj
      | arr xs => simp [isObj] at hobj
    · subst hnull; rfl
  · intro p
    cases p with
    | obj f =>
      cases hpt : pyTruthy (.obj f) with
      | false => left; simp [export_status, data_status, hpt]
      | true =>
        by_cases h2 : (hasKey f "school_name" && hasKey f "terms") = true
        · cases hv : (findVal f "terms").getD (.arr []) with
          | arr ts =>
            left; simp [export_status, data_status, hpt, h2, hv]
          | null => right; simp [export_status, data_status, hpt, h2, hv]
          | bool b => right; simp [export_status, data_status, hpt, h2, hv]
          | num n => right; simp [export_status, data_status, hpt, h2, hv]
          | str s => right; simp [export_status, data_status, hpt, h2, hv]
          | obj g => right; simp [export_status, data_status, hpt, h2, hv]
        · left; simp [export_status, data_status, hpt, h2]
    | null => left; rfl
    | bool b => left; rfl
    | num n => left; rfl
    | str s => left; rfl
    | arr xs => left; rfl
  · intro f v h1 h2 h3
    have hk : hasKey f "school_name" = true := by
      simp only [Bool.and_eq_true] at h1; exact h1.1
    have hne : pyTruthy (.obj f) = true := by
      cases f with
      | nil => simp [hasKey, findVal] at hk
      | cons a l => rfl
    have hg : (findVal f "terms").getD (.arr []) = v := by simp [h2]
    cases v <;> simp [isArr] at h3 <;>
      constructor <;> simp [export_status, data_status, hne, h1, hg]
  · intro p
    cases p with
    | obj f =>
      cases hf : f.isEmpty with
      | true =>
        have : f = [] := by simpa [List.isEmpty_iff] using hf
        subst this; simp [report_status, classify]
      | false =>
        simp only [report_status, classify, hf]
        by_cases h2 : (hasKey f "school_name" && hasKey f "terms") = true
        · simp only [hf, h2]
          cases hv : (findVal f "terms").getD (.arr []) with
          | arr ts => by_cases h3 : ts.isEmpty <;> simp [h3]
          | null => simp
          | bool b => simp
          | num n => simp
          | str s => simp
          | obj g => simp
        · simp [hf, h2]
    | null => simp [report_status, classify]
    | bool b => simp [report_status, classify]
    | num n => simp [report_status, classify]
    | str s => simp [report_status, classify]
    | arr xs => simp [report_status, classify]
  · intro p
    cases p with
    | obj f =>
      cases hf : f.isEmpty with
      | true =>
        have : f = [] := by simpa [List.isEmpty_iff] using hf
        subst this; simp [report_status, classify]
      | false =>
        simp only [report_status, classify, hf]
        by_cases h2 : (hasKey f "school_name" && hasKey f "terms") = true
        · simp only [hf, h2]
          cases hv : (findVal f "terms").getD (.arr []) with
          | arr ts => by_cases h3 : ts.isEmpty <;> simp [h3]
          | null => simp
          | bool b => simp
          | num n => simp
          | str s => simp
          | obj g => simp
        · simp [hf, h2]
    | null => simp [report_status, classify]
    | bool b => simp [report_status, classify]
    | num n => simp [report_status, classify]
    | str s => simp [report_status, classify]
    | arr xs => simp [report_status, classify]

/-- Witness for C7: the amended theorem applied to the payload
`{"school_name": "A", "terms": 5}` (terms present but not a list),
where export and display genuinely differ. -/
theorem C7_classification_amended_witness :
    (hasKey [("school_name", Json.str "A"), ("terms", Json.num 5)] "school_name"
      && hasKey [("school_name", Json.str "A"), ("terms", Json.num 5)] "terms") = true
    ∧ export_status (Json.obj [("school_name", Json.str "A"), ("terms", Json.num 5)]) =
        Category.invalid
    ∧ data_status (Json.obj [("school_name", Json.str "A"), ("terms", Json.num 5)]) =
        Category.refinedEmptyTerms :=
 by
  have h := C7_classification_amended.2.2.2.2.1
    [("school_name", Json.str "A"), ("terms", Json.num 5)] (Json.num 5)
    (by rfl) (by rfl) (by rfl)
  exact ⟨by rfl, h.1, h.2⟩

/-- Claim C8: `has_valid_calendar_data` holds iff the most recent record
exists and its payload is a dict with both keys and a non-empty `terms`
list; promotion collects exactly the valid-data schools with
`process=false`; demotion collects the invalid-data schools with
`process=true` only under the opt-in option and is empty otherwise,
while promotion does not depend on the option; the flag-reset set
collects exactly the zero-record schools currently showing at least one
downstream flag, and the reset clears both flags and nothing else. -/
theorem C8_process_reconciliation :
    (∀ recs, has_valid_calendar_data recs = true ↔
      ∃ f rest ts, recs = Json.obj f :: rest
        ∧ hasKey f "school_name" = true ∧ hasKey f "terms" = true
        ∧ findVal f "terms" = some (Json.arr ts) ∧ ts ≠ [])
    ∧ (∀ schools s, s ∈ promote_set schools ↔
        s ∈ schools ∧ has_valid_calendar_data s.records = true ∧ s.process = false)
    ∧ (∀ schools s, s ∈ demote_set true schools ↔
        s ∈ schools ∧ has_valid_calendar_data s.records = false ∧ s.process = true)
    ∧ (∀ schools, demote_set false schools = [])
    ∧ (∀ schools s, s ∈ reset_set schools ↔
        s ∈ schools ∧ s.records = []
          ∧ (s.second_scraper = true ∨ s.third_scraper = true))
    ∧ (∀ s, (apply_reset s).second_scraper = false
        ∧ (apply_reset s).third_scraper = false
        ∧ (apply_reset s).process = s.process
        ∧ (apply_reset s).records = s.records) := by
  refine ⟨?_, ?_, ?_, ?_, ?_, ?_⟩
  · intro recs
    constructor
    · intro h
      cases recs with
      | nil => simp [has_valid_calendar_data] at h
      | cons d rest =>
        cases d with
        | obj f =>
          cases hpt : pyTruthy (.obj f) with
          | false => simp [has_valid_calendar_data, hpt] at h
          | true =>
            cases h2 : (hasKey f "school_name" && hasKey f "terms") with
            | false => simp [has_valid_calendar_data, hpt, h2] at h
            | true =>
              cases hv : findVal f "terms" with
              | none =>
                have : hasKey f "terms" = false := by simp [hasKey, hv]
                simp [this] at h2
              | some v =>
                cases v with
                | arr ts =>
                  have hts : ts.isEmpty = false := by
                    by_contra hc
                    simp [Bool.not_eq_false] at hc
                    simp [has_valid_calendar_data, hpt, h2, hv, hc] at h
                  refine ⟨f, rest, ts, rfl, ?_, ?_, hv, ?_⟩
                  · simp only [Bool.and_eq_true] at h2; exact h2.1
                  · simp only [Bool.and_eq_true] at h2; exact h2.2
                  · simpa [List.isEmpty_iff] using hts
                | null => simp [has_valid_calendar_data, hpt, h2, hv] at h
                | bool b => simp [has_valid_calendar_data, hpt, h2, hv] at h
                | num n => simp [has_valid_calendar_data, hpt, h2, hv] at h
                | str st => simp [has_valid_calendar_data, hpt, h2, hv] at h
                | obj g => simp [has_valid_calendar_data, hpt, h2, hv] at h
        | null => simp [has_valid_calendar_data, pyTruthy] at h
        | bool b => simp [has_valid_calendar_data, pyTruthy, isObj] at h
        | num n => simp [has_valid_calendar_data, pyTruthy, isObj] at h
        | str st => simp [has_valid_calendar_data, pyTruthy, isObj] at h
        | arr xs => simp [has_valid_calendar_data, pyTruthy, isObj] at h
    · rintro ⟨f, rest, ts, hrec, h1, h2, hv, hts⟩
      subst hrec
      have hne : pyTruthy (.obj f) = true := by
        cases f with
        | nil => simp [hasKey, findVal] at h1
        | cons a l => rfl
      have hts' : ts.isEmpty = false := by
        cases ts with
        | nil => exact absurd rfl hts
        | cons a l => rfl
      simp [has_valid_calendar_data, hne, h1, h2, hv, hts']
  · intro schools s
    simp [promote_set, List.mem_filter, Bool.and_eq_true, Bool.not_eq_true']
  · intro schools s
    simp [demote_set, List.mem_filter, Bool.and_eq_true, Bool.not_eq_true']
  · intro schools
    simp [demote_set]
  · intro schools s
    simp [reset_set, List.mem_filter, Bool.and_eq_true, Bool.or_eq_true,
      List.isEmpty_iff]
  · intro s
    exact ⟨rfl, rfl, rfl, rfl⟩

/-- School with a refined current record but `process=false` (should be
promoted). -/
def schoolNeedsPromote : SchoolSt :=
  { process := false, second_scraper := false, third_scraper := false,
    records := [exampleDoc] }

/-- School with no records but `second_scraper=true` (should be in the
flag-reset set). -/
def schoolNoData : SchoolSt :=
  { process := false, second_scraper := true, third_scraper := false,
    records := [] }

/-- Witness for C8: the reconciliation theorem applied at a concrete
two-school database. -/
theorem C8_process_reconciliation_witness :
    schoolNeedsPromote ∈ promote_set [schoolNeedsPromote, schoolNoData]
    ∧ schoolNoData ∈ reset_set [schoolNeedsPromote, schoolNoData]
    ∧ demote_set false [schoolNeedsPromote, schoolNoData] = [] :=
  ⟨(C8_process_reconciliation.2.1 _ _).mpr
      ⟨List.mem_cons_self _ _, by rfl, rfl⟩,
   (C8_process_reconciliation.2.2.2.2.1 _ _).mpr
      ⟨List.mem_cons_of_mem _ (List.mem_cons_self _ _), rfl, Or.inl rfl⟩,
   C8_process_reconciliation.2.2.2.1 _⟩

/-- A store whose school 1 has a current record with a truthy non-object
payload (the string "x"). -/
def dbStringPayload : DataDb := { schools := [1], records := [(1, Json.str "x")] }

/-- A POST body with a known school and an object `data`. -/
def postBodySimple : Option Json :=
  some (.obj [("school_id", .num 1), ("data", .obj [("a", .num 1)])])

/-- Counterexample for claim C9: with a current record present (payload
the string "x"), the claim says the payload becomes the shallow merge
and the action is "updated"; the code instead raises an uncaught
`TypeError` at the dict merge (a 500, not an update), leaving the
store unchanged. -/
theorem C9_counterexample_nonobject_existing :
    current_record dbStringPayload 1 = some (Json.str "x")
    ∧ pyTruthy (Json.str "x") = true
    ∧ (create_or_update_school_data dbStringPayload postBodySimple).1 = PostResult.crash
    ∧ (create_or_update_school_data dbStringPayload postBodySimple).2.records =
        dbStringPayload.records := by
  exact ⟨rfl, by decide, rfl, rfl⟩

/-- Claim C9 as amended: for a known school and object `data`, a school
without a record gets a new current record with payload `data` (action
"created"); a school whose current record payload is an object (or
falsy, treated as the empty object) gets the shallow merge with
incoming keys winning (action "updated"); missing/null `school_id` or
`data` and non-object `data` give 400, an unknown school 404, each
leaving the records unchanged; a truthy non-object existing payload
raises an uncaught `TypeError` (500), also leaving the records
unchanged; and the claim's concrete merge example holds. -/
theorem C9_post_data_amended :
    (∀ db : DataDb, create_or_update_school_data db none = (.err 400, db))
    ∧ (∀ db bf, isNull ((findVal bf "school_id").getD .null) = true →
        create_or_update_school_data db (some (.obj bf)) = (.err 400, db))
    ∧ (∀ db bf, isNull ((findVal bf "school_id").getD .null) = false →
        isNull ((findVal bf "data").getD .null) = true →
        create_or_update_school_data db (some (.obj bf)) = (.err 400, db))
    ∧ (∀ db bf d, isNull ((findVal bf "school_id").getD .null) = false →
        findVal bf "data" = some d → isNull d = false → isObj d = false →
        create_or_update_school_data db (some (.obj bf)) = (.err 400, db))
    ∧ (∀ db bf sid df urn, findVal bf "school_id" = some sid →
        isNull sid = false → findVal bf "data" = some (.obj df) →
        urn_of_json sid = .ok urn → urn ∉ db.schools →
        create_or_update_school_data db (some (.obj bf)) = (.err 404, db))
    ∧ (∀ db bf sid df urn, findVal bf "school_id" = some sid →
        isNull sid = false → findVal bf "data" = some (.obj df) →
        urn_of_json sid = .ok urn → urn ∈ db.schools →
        current_record db urn = none →
        create_or_update_school_data db (some (.obj bf)) =
          (.ok 201 "created" (.obj df),
           { db with records := (urn, .obj df) :: db.records })
        ∧ current_record
            { db with records := (urn, .obj df) :: db.records } urn =
            some (.obj df))
    ∧ (∀ db bf sid df urn ef, findVal bf "school_id" = some sid →
        isNull sid = false → findVal bf "data" = some (.obj df) →
        urn_of_json sid = .ok urn → urn ∈ db.schools →
        current_record db urn = some (.obj ef) →
        create_or_update_school_data db (some (.obj bf)) =
          (.ok 200 "updated" (.obj (merge_dicts ef df)),
           { db with records :=
              set_current_record db.records urn (.obj (merge_dicts ef df)) }))
    ∧ (∀ db bf sid df urn ex, findVal bf "school_id" = some sid →
        isNull sid = false → findVal bf "data" = some (.obj df) →
        urn_of_json sid = .ok urn → urn ∈ db.schools →
        current_record db urn = some ex → pyTruthy ex = true →
        isObj ex = false →
        create_or_update_school_data db (some (.obj bf)) = (.crash, db))
    ∧ merge_dicts [("a", Json.num 1), ("b", Json.num 2)]
        [("b", Json.num 3), ("c", Json.num 4)] =
        [("a", Json.num 1), ("b", Json.num 3), ("c", Json.num 4)] := by
  refine ⟨fun db => rfl, ?_, ?_, ?_, ?_, ?_, ?_, ?_, rfl⟩
  · intro db bf h1; simp [create_or_update_school_data, h1]
  · intro db bf h1 h2; simp [create_or_update_school_data, h1, h2]
  · intro db bf d h1 h2 h3 h4
    cases d <;> simp [isNull, isObj] at h3 h4 <;>
      simp [create_or_update_school_data, h1, h2]
  · intro db bf sid df urn h1 h2 h3 h4 h5
    have hdf : isNull (Json.obj df) = false := rfl
    simp [create_or_update_school_data, h1, h2, h3, hdf, h4, h5]
  · intro db bf sid df urn h1 h2 h3 h4 h5 h6
    have hdf : isNull (Json.obj df) = false := rfl
    constructor
    · simp [create_or_update_school_data, h1, h2, h3, hdf, h4, h5, h6]
    · simp [current_record, List.find?]
  · intro db bf sid df urn ef h1 h2 h3 h4 h5 h6
    have hdf : isNull (Json.obj df) = false := rfl
    cases hef : ef.isEmpty with
    | true =>
      have : ef = [] := by simpa [List.isEmpty_iff] using hef
      subst this
      simp [create_or_update_school_data, h1, h2, h3, hdf, h4, h5, h6,
        pyTruthy]
    | false =>
      have hpt : pyTruthy (Json.obj ef) = true := by simp [pyTruthy, hef]
      simp [create_or_update_school_data, h1, h2, h3, hdf, h4, h5, h6, hpt]
  · intro db bf sid df urn ex h1 h2 h3 h4 h5 h6 h7 h8
    have hdf : isNull (Json.obj df) = false := rfl
    cases ex with
    | obj g => simp [isObj] at h8
    | null => simp [pyTruthy] at h7
    | bool b =>
      simp [create_or_update_school_data, h1, h2, h3, hdf, h4, h5, h6, h7]
    | num n =>
      simp [create_or_update_school_data, h1, h2, h3, hdf, h4, h5, h6, h7]
    | str st =>
      simp [create_or_update_school_data, h1, h2, h3, hdf, h4, h5, h6, h7]
    | arr xs =>
      simp [create_or_update_school_data, h1, h2, h3, hdf, h4, h5, h6, h7]

/-- The store of the claim's merge example: school 1 with current
payload `{"a":1,"b":2}`. -/
def dbMergeExample : DataDb :=
  { schools := [1], records := [(1, Json.obj [("a", Json.num 1), ("b", Json.num 2)])] }

/-- The claim's merge-example body: `{"school_id":1,"data":{"b":3,"c":4}}`. -/
def postBodyMerge : Option Json :=
  some (.obj [("school_id", .num 1),
              ("data", .obj [("b", Json.num 3), ("c", Json.num 4)])])

/-- Witness for C9: the amended theorem applied to the claim's merge
example, yielding action "updated" with payload `{"a":1,"b":3,"c":4}`. -/
theorem C9_post_data_amended_witness :
    create_or_update_school_data dbMergeExample postBodyMerge =
      (.ok 200 "updated"
        (Json.obj [("a", Json.num 1), ("b", Json.num 3), ("c", Json.num 4)]),
       { dbMergeExample with
          records := [(1, Json.obj [("a", Json.num 1), ("b", Json.num 3),
            ("c", Json.num 4)])] }) := by
  have h := C9_post_data_amended.2.2.2.2.2.2.1 dbMergeExample
    [("school_id", Json.num 1),
     ("data", Json.obj [("b", Json.num 3), ("c", Json.num 4)])]
    (Json.num 1) [("b", Json.num 3), ("c", Json.num 4)] 1
    [("a", Json.num 1), ("b", Json.num 2)]
    (by rfl) (by rfl) (by rfl) (by rfl) (by decide) (by rfl)
  simpa [dbMergeExample, postBodyMerge] using h

/-- One import iteration never touches the records. -/
theorem import_row_records (db : ImportDb) (row : CsvRow) :
    (import_row db row).records = db.records := by
  by_cases h1 : rowGet row "URN" = ""
  · simp [import_row, h1]
  · cases h2 : strToInt? (rowGet row "URN") with
    | none => simp [import_row, h1, h2]
    | some urn =>
      by_cases h3 : urn ∈ db.schools
      · simp [import_row, h1, h2, h3]
      · by_cases h4 : rowGet row "EstablishmentName" = ""
        · simp [import_row, h1, h2, h3, h4]
        · simp [import_row, h1, h2, h3, h4]

/-- The whole import sweep never touches the records. -/
theorem import_rows_records (db : ImportDb) (rows : List CsvRow) :
    (import_rows db rows).records = db.records := by
  induction rows generalizing db with
  | nil => rfl
  | cons r rs ih =>
    exact (ih (import_row db r)).trans (import_row_records db r)

/-- A school outside the referenced-school set has no records, given the
foreign-key invariant that every record points at a known school. -/
theorem records_for_eq_nil (recs : List (Int × Json)) (schools : List Int)
    (urn : Int) (hFK : ∀ p ∈ recs, p.1 ∈ schools) (h : urn ∉ schools) :
    records_for recs urn = [] := by
  induction recs with
  | nil => rfl
  | cons p ps ih =>
    have hp : p.1 ∈ schools := hFK p (List.mem_cons_self _ _)
    have hne : ¬(p.1 = urn) := fun he => h (he ▸ hp)
    have := ih (fun q hq => hFK q (List.mem_cons_of_mem _ hq))
    simpa [records_for, List.filter_cons, hne] using this

/-- Claim C10: the bulk CSV import assembles a cleaned JSON object per
row but creates School rows only — the record store is unchanged by any
import, so (under the foreign-key invariant) a school that did not
exist before the import has zero records afterwards: its current record
is absent and the CSV exporter's original-data lookup finds nothing. -/
theorem C10_import_creates_no_records :
    (∀ row, isObj (clean_row_json row) = true)
    ∧ (∀ db rows, (import_rows db rows).records = db.records)
    ∧ (∀ db rows urn, (∀ p ∈ db.records, p.1 ∈ db.schools) →
        urn ∉ db.schools → urn ∈ (import_rows db rows).schools →
        records_for (import_rows db rows).records urn = []
        ∧ (records_for (import_rows db rows).records urn).head? = none
        ∧ find_original_data
            (records_for (import_rows db rows).records urn) = none) := by
  refine ⟨fun row => rfl, import_rows_records, ?_⟩
  intro db rows urn hFK hnew _
  have hrec := import_rows_records db rows
  have hnil : records_for (import_rows db rows).records urn = [] := by
    rw [hrec]
    exact records_for_eq_nil db.records db.schools urn hFK hnew
  exact ⟨hnil, by rw [hnil]; rfl, by rw [hnil]; rfl⟩

/-- A CSV row with the columns the importer reads. -/
def importTestRow : CsvRow :=
  [("URN", "123"), ("EstablishmentName", "Test School"), ("LA (name)", "Camden"),
   ("EstablishmentStatus (name)", "Open"), ("SchoolWebsite", "")]

/-- An empty store before an import. -/
def importEmptyDb : ImportDb := { schools := [], records := [] }

/-- Witness for C10: importing one fresh row into an empty store creates
the school and leaves it with zero records and no original data. -/
theorem C10_import_creates_no_records_witness :
    (import_rows importEmptyDb [importTestRow]).schools = [123]
    ∧ records_for (import_rows importEmptyDb [importTestRow]).records 123 = []
    ∧ find_original_data
        (records_for (import_rows importEmptyDb [importTestRow]).records 123) = none :=
  ⟨rfl,
   (C10_import_creates_no_records.2.2 importEmptyDb [importTestRow] 123
      (by simp [importEmptyDb]) (by simp [importEmptyDb]) (by decide)).1,
   (C10_import_creates_no_records.2.2 importEmptyDb [importTestRow] 123
      (by simp [importEmptyDb]) (by simp [importEmptyDb]) (by decide)).2.2⟩
